import Mathlib

/-!
Shallow embedding of the ponrunner lifecycle orchestrator.

The definitions below translate the Go source:
* `ponrunner.go` — configuration key constants, `RegisterAPIBundles`,
  `handleShutdown` and the tail of `Start` (the select between the
  ListenAndServe outcome channel and the signal context, followed by the
  shutdown attempt and error reconciliation);
* the telemetry file (`setupOTelSDK`, `masterShutdown`,
  `handleComponentSetupError`, `parseDuration` and the per-signal
  exporter-timeout resolution in `newTracerProvider` /
  `newMeterProvider` / `newLoggerProvider`).

Go `error` values are modelled by `GoError`; a nil error is `none` at type
`Option GoError`.  `errors.Join` is always called with exactly two
arguments in this code base; a join of one non-nil error is
`GoError.joinedOne` and a join of two non-nil errors is
`GoError.joinedPair`, matching the `joinError` wrapper that
`errors.Join` builds (a single-element join is a wrapper around the
error, not the error itself).  `errors.Is` traverses the wrapper via
`Unwrap`, which `errorsIs` mirrors.
-/

/-- Go error values as used by ponrunner: the `http.ErrServerClosed`
sentinel, the two context errors, opaque named errors, and the results of
`errors.Join` on one or two non-nil errors. -/
inductive GoError where
  | errServerClosed : GoError
  | deadlineExceeded : GoError
  | canceled : GoError
  | named : String → GoError
  | joinedOne : GoError → GoError
  | joinedPair : GoError → GoError → GoError
deriving DecidableEq, Repr

/-- Go `errors.Is`: an error matches the target if it is the target, or if
the target is reachable through the `Unwrap` tree built by `errors.Join`. -/
def errorsIs : GoError → GoError → Bool
  | .joinedOne a, t => (GoError.joinedOne a == t) || errorsIs a t
  | .joinedPair a b, t => (GoError.joinedPair a b == t) || errorsIs a t || errorsIs b t
  | .errServerClosed, t => GoError.errServerClosed == t
  | .deadlineExceeded, t => GoError.deadlineExceeded == t
  | .canceled, t => GoError.canceled == t
  | .named s, t => GoError.named s == t

/-- Go `errors.Join(acc, e)` for a non-nil `e`, as used in the guarded
accumulation patterns of the telemetry file: joining onto a nil
accumulator wraps the single error, otherwise both are wrapped. -/
def goJoin (acc : Option GoError) (e : GoError) : GoError :=
  match acc with
  | none => .joinedOne e
  | some a => .joinedPair a e

/-! ## Configuration keys (`ponrunner.go` lines 21-27)

Each constant is the key string bound to the Go `configura.Variable`
constant of the same name.  The values are copied verbatim from the
source. -/

def SERVER_PORT : String := "SERVER_PORT"

def SERVER_WRITE_TIMEOUT : String := "SERVER_REQUEST_TIMEOUT"

def SERVER_READ_TIMEOUT : String := "SERVER_READ_TIMEOUT"

def SERVER_REQUEST_TIMEOUT : String := "SERVER_REQUEST_TIMEOUT"

def SERVER_SHUTDOWN_TIMEOUT : String := "SERVER_SHUTDOWN_TIMEOUT"

/-- The key list `Start` passes to `cfg.ConfigurationKeysRegistered`,
in source order (`ponrunner.go` lines 88-94). -/
def startRequiredKeys : List String :=
  [SERVER_PORT, SERVER_REQUEST_TIMEOUT, SERVER_READ_TIMEOUT,
   SERVER_WRITE_TIMEOUT, SERVER_SHUTDOWN_TIMEOUT]

/-- The timeout-relevant fields of the `http.Server` literal and the
request-timeout middleware that `Start` builds (`ponrunner.go` lines
103-125): `WriteTimeout` and `ReadTimeout` come from `cfg.Int64` on the
corresponding key constants, and the chi `Timeout` middleware from
`cfg.Int64(SERVER_REQUEST_TIMEOUT)`. -/
structure ConfiguredServer where
  addrPort : Int
  readTimeoutSecs : Int
  writeTimeoutSecs : Int
  requestTimeoutSecs : Int
deriving DecidableEq, Repr

/-- Modelled from the spec: the configuration store is a pre-populated
key/value map with typed accessors; `cfgInt` is the `Int64` accessor,
keyed by the key strings above.  `buildServer` mirrors the server and
middleware construction in `Start`. -/
def buildServer (cfgInt : String → Int) : ConfiguredServer :=
  { addrPort := cfgInt SERVER_PORT
    readTimeoutSecs := cfgInt SERVER_READ_TIMEOUT
    writeTimeoutSecs := cfgInt SERVER_WRITE_TIMEOUT
    requestTimeoutSecs := cfgInt SERVER_REQUEST_TIMEOUT }

/-! ## RegisterAPIBundles (`ponrunner.go` lines 33-41) -/

/-- Each API bundle is modelled as an identifier (so that the order of
invocation is observable) together with the error the bundle returns when
invoked.  `registerAPIBundles` mirrors the Go loop: invoke each bundle in
order, return the first non-nil error immediately; the first component of
the result is the list of bundles actually invoked, in order. -/
def registerAPIBundles {σ : Type} : List (σ × Option GoError) → List σ × Option GoError
  | [] => ([], none)
  | (i, r) :: rest =>
    match r with
    | some e => ([i], some e)
    | none =>
      let t := registerAPIBundles rest
      (i :: t.1, t.2)

/-! ## handleShutdown (`ponrunner.go` lines 52-83) -/

/-- Modelled from the spec: a Go context, reduced to the one observable
that matters at the instant the stop operation is invoked — whether its
done-signal has already fired (deadline elapsed or cancellation). -/
structure GoContext where
  expired : Bool
deriving DecidableEq, Repr

/-- Modelled from the spec: `context.WithTimeout` derives a context that
is already expired at the time of the call exactly when the parent is
expired or the duration is zero or negative ("the derived signal is
already expired before the stop operation is invoked"). -/
def contextWithTimeout (parent : GoContext) (d : Int) : GoContext :=
  { expired := parent.expired || decide (d ≤ 0) }

/-- The observable outcome of one `handleShutdown` run: the contexts the
stop operation was invoked with (the invocation trace) and the returned
error. -/
structure ShutdownRun where
  invoked : List GoContext
  result : Option GoError
deriving DecidableEq, Repr

/-- `handleShutdown`: derive `shutdownOpCtx` from the parent with the
configured timeout, invoke `srv.Shutdown` with it exactly once, swallow
the `http.ErrServerClosed` sentinel, and return any other error
unchanged.  The logging goroutine observes `shutdownOpCtx` only and does
not affect the result. -/
def handleShutdown (shutdownParentCtx : GoContext)
    (srv : GoContext → Option GoError) (shutdownTimeout : Int) : ShutdownRun :=
  let shutdownOpCtx := contextWithTimeout shutdownParentCtx shutdownTimeout
  match srv shutdownOpCtx with
  | some e =>
    if e = .errServerClosed then { invoked := [shutdownOpCtx], result := none }
    else { invoked := [shutdownOpCtx], result := some e }
  | none => { invoked := [shutdownOpCtx], result := none }

/-! ## The tail of Start (`ponrunner.go` lines 127-176) -/

/-- Which branch of the `select` in `Start` fires first: the
ListenAndServe goroutine delivered an error on the channel, the goroutine
closed the channel (clean return), or the signal context was cancelled
first. -/
inductive RaceOutcome where
  | listenErr : GoError → RaceOutcome
  | channelClosed : RaceOutcome
  | ctxDone : RaceOutcome
deriving DecidableEq, Repr

/-- The ListenAndServe goroutine (`ponrunner.go` lines 128-140): a
non-nil result other than `http.ErrServerClosed` is sent on the error
channel; `nil` or the sentinel closes the channel instead. -/
def serveOutcome (lsErr : Option GoError) : RaceOutcome :=
  match lsErr with
  | some e => if e = .errServerClosed then .channelClosed else .listenErr e
  | none => .channelClosed

/-- The environment a run of `Start` executes in: the result of the
configuration-key registration check, the API bundles, the winning branch
of the select, the server's Shutdown behaviour, and the configured
shutdown timeout in seconds. -/
structure StartEnv (σ : Type) where
  keysRegisteredErr : Option GoError
  bundles : List (σ × Option GoError)
  race : RaceOutcome
  srvShutdown : GoContext → Option GoError
  shutdownTimeoutSecs : Int

/-- One second, as a Go `time.Duration` count of nanoseconds. -/
def goSecondNs : Int := 1000000000

/-- `Start`: key registration, bundle registration, then the select race;
`listenAndServeError` is set only when the channel delivered an error.
`handleShutdown` runs on a fresh background context regardless of how the
select exited; if `listenAndServeError` is non-nil it is returned and the
shutdown error is only logged, otherwise the shutdown error is the
result. -/
def Start {σ : Type} (env : StartEnv σ) : Option GoError :=
  match env.keysRegisteredErr with
  | some e => some e
  | none =>
    match (registerAPIBundles env.bundles).2 with
    | some e => some e
    | none =>
      let listenAndServeError : Option GoError :=
        match env.race with
        | .listenErr e => some e
        | .channelClosed => none
        | .ctxDone => none
      let shutdownErr :=
        (handleShutdown { expired := false } env.srvShutdown
          (env.shutdownTimeoutSecs * goSecondNs)).result
      match listenAndServeError with
      | some e => some e
      | none => shutdownErr

/-! ## The telemetry sequencer (`setupOTelSDK` and friends) -/

/-- The three telemetry subsystems initialized by `setupOTelSDK`, in
source order. -/
inductive Comp where
  | tracer : Comp
  | meter : Comp
  | logg : Comp
deriving DecidableEq, Repr

/-- Observable events of a sequencer run: a provider initializer was
invoked, or a registered shutdown function was invoked. -/
inductive Ev where
  | init : Comp → Ev
  | teardown : Comp → Ev
deriving DecidableEq, Repr

/-- The environment a `setupOTelSDK` run executes in: the result of
resource creation, and per component the result of its initializer and of
its shutdown function. -/
structure OtelEnv where
  resourceErr : Option GoError
  initErr : Comp → Option GoError
  teardownErr : Comp → Option GoError

/-- The telemetry configuration switches read by `setupOTelSDK`:
the result of `ConfigurationKeysRegistered` over the 22 OTEL keys, the
global `OTEL_ENABLED` switch, and the per-signal enable switches.  For a
registered boolean key `configura.Fallback(cfg.Bool(k), false)` is the
stored boolean itself, so each switch is one `Bool`. -/
structure OtelCfg where
  keysErr : Option GoError
  otelEnabled : Bool
  tracesEnabled : Bool
  metricsEnabled : Bool
  logsEnabled : Bool

/-- The enable switch guarding each component's block in
`setupOTelSDK`, paired with the component, in source order
(tracer, then meter, then logger). -/
def componentPlan (cfg : OtelCfg) : List (Bool × Comp) :=
  [(cfg.tracesEnabled, .tracer), (cfg.metricsEnabled, .meter), (cfg.logsEnabled, .logg)]

/-- The components whose blocks actually run, in order: the plan filtered
to the enabled entries. -/
def enabledComps (bs : List (Bool × Comp)) : List Comp :=
  bs.filterMap (fun p => if p.1 then some p.2 else none)

/-- One step of the error accumulation in `masterShutdown`:
`if e := fn(shutdownCtx); e != nil { shutdownErr = errors.Join(shutdownErr, e) }`. -/
def tdStep (env : OtelEnv) (acc : Option GoError) (c : Comp) : Option GoError :=
  match env.teardownErr c with
  | none => acc
  | some e => some (goJoin acc e)

/-- The result of running the body of `masterShutdown` against a registry
state: the teardown events emitted and the joined error. -/
structure TdOutcome where
  events : List Ev
  err : Option GoError
deriving DecidableEq, Repr

/-- The body of `masterShutdown` (telemetry file lines 207-224): iterate
the registered shutdown functions in reverse registration order, joining
each non-nil error; afterwards the registry is cleared
(`shutdownFuncs = nil`). -/
def masterShutdown (env : OtelEnv) (regs : List Comp) : TdOutcome :=
  { events := regs.reverse.map Ev.teardown
    err := regs.reverse.foldl (tdStep env) none }

/-- The composite teardown value `setupOTelSDK` returns: the no-op
function of the disabled path, or the `masterShutdown` closure over the
current registry contents. -/
inductive Teardown where
  | noop : Teardown
  | master : List Comp → Teardown
deriving DecidableEq, Repr

/-- The observable outcome of invoking the composite teardown once: the
teardown events, the returned error, and the teardown value as left for a
subsequent call (the `masterShutdown` closure sees `shutdownFuncs = nil`
after any call). -/
structure TdCall where
  events : List Ev
  err : Option GoError
  next : Teardown
deriving DecidableEq, Repr

/-- Invoking the composite teardown function returned by
`setupOTelSDK`. -/
def callTeardown (env : OtelEnv) : Teardown → TdCall
  | .noop => { events := [], err := none, next := .noop }
  | .master regs =>
    let td := masterShutdown env regs
    { events := td.events, err := td.err, next := .master [] }

/-- The error built by `handleComponentSetupError` (telemetry file lines
228-237): `cumulativeErr = errors.Join(nil, componentErr)`, then joined
with the unwind error when that is non-nil. -/
def failErr (e : GoError) (tdErr : Option GoError) : GoError :=
  match tdErr with
  | none => .joinedOne e
  | some s => .joinedPair (.joinedOne e) s

/-- The outcome of `setupOTelSDK`: events emitted during setup, the
returned composite teardown function (`none` when the Go function
returns a nil function), and the returned error. -/
structure SetupOutcome where
  events : List Ev
  teardown : Option Teardown
  err : Option GoError

/-- The three per-component blocks of `setupOTelSDK` (telemetry file
lines 249-292) are the same code repeated for tracer, meter, logger;
`runComponents` runs that code over the plan.  A disabled component is
skipped.  An enabled component's initializer is invoked; on success its
shutdown function is appended to the registry; on failure
`handleComponentSetupError` joins the component error, eagerly runs
`masterShutdown` on the registry accumulated so far (clearing it), and
`setupOTelSDK` returns the (now empty) `masterShutdown` closure together
with the cumulative error. -/
def runComponents (env : OtelEnv) :
    List (Bool × Comp) → List Ev → List Comp → SetupOutcome
  | [], evs, regs => { events := evs, teardown := some (.master regs), err := none }
  | (b, c) :: rest, evs, regs =>
    if b then
      match env.initErr c with
      | some e =>
        let td := masterShutdown env regs
        { events := evs ++ [Ev.init c] ++ td.events
          teardown := some (.master [])
          err := some (failErr e td.err) }
      | none => runComponents env rest (evs ++ [Ev.init c]) (regs ++ [c])
    else
      runComponents env rest evs regs

/-- `setupOTelSDK`: key registration check, the `OTEL_ENABLED`
short-circuit returning a no-op teardown, resource creation, then the
per-component blocks. -/
def setupOTelSDK (cfg : OtelCfg) (env : OtelEnv) : SetupOutcome :=
  match cfg.keysErr with
  | some e => { events := [], teardown := none, err := some e }
  | none =>
    if cfg.otelEnabled then
      match env.resourceErr with
      | some e => { events := [], teardown := none, err := some e }
      | none => runComponents env (componentPlan cfg) [] []
    else
      { events := [], teardown := some .noop, err := none }

/-! ## Exporter timeout resolution (telemetry file lines 77-87, 306-313
and the analogous metric/log lines) -/

/-- Modelled from the spec: `configura.Fallback` on strings yields the
first value when it is non-empty, otherwise the second (the documented
fallback chain "signal-specific value, then global value"). -/
def fallback (v d : String) : String :=
  if v = "" then d else v

/-- `parseDuration` (telemetry file lines 77-87), parametric in the
standard-library duration parser `timeParse` (Go `time.ParseDuration`,
returning `none` on a parse error): an empty string or an unparsable
string yields the supplied default. -/
def parseDuration (timeParse : String → Option Nat) (durationStr : String)
    (defaultDuration : Nat) : Nat :=
  if durationStr = "" then defaultDuration
  else
    match timeParse durationStr with
    | some d => d
    | none => defaultDuration

/-- The three telemetry signal types whose exporters resolve a timeout. -/
inductive Signal where
  | traces : Signal
  | metrics : Signal
  | logs : Signal
deriving DecidableEq, Repr

/-- The timeout-related string configuration values: one per signal plus
the global `OTEL_EXPORTER_OTLP_TIMEOUT`. -/
structure OtlpTimeoutCfg where
  tracesTimeout : String
  metricsTimeout : String
  logsTimeout : String
  otlpTimeout : String
deriving DecidableEq, Repr

/-- The signal-specific timeout string each provider constructor reads
(`OTEL_EXPORTER_OTLP_TRACES_TIMEOUT` in `newTracerProvider`, and the
metric/log analogues). -/
def signalTimeoutStr (cfg : OtlpTimeoutCfg) : Signal → String
  | .traces => cfg.tracesTimeout
  | .metrics => cfg.metricsTimeout
  | .logs => cfg.logsTimeout

/-- The built-in default exporter timeout, `10*time.Second` in
nanoseconds. -/
def defaultOtlpTimeoutNs : Nat := 10000000000

/-- The timeout computation each provider constructor performs:
`parseDuration(configura.Fallback(signal value, global value), 10*time.Second)`. -/
def exporterTimeout (timeParse : String → Option Nat) (cfg : OtlpTimeoutCfg)
    (s : Signal) : Nat :=
  parseDuration timeParse (fallback (signalTimeoutStr cfg s) cfg.otlpTimeout)
    defaultOtlpTimeoutNs

/-! ## Concrete sample inputs used to evaluate the definitions -/

/-- A fresh, unexpired shutdown parent context. -/
def sampleCtx : GoContext := { expired := false }

/-- A server whose Shutdown always reports the already-closed sentinel. -/
def sampleSrvClosed : GoContext → Option GoError :=
  fun _ => some GoError.errServerClosed

/-- A server whose Shutdown always reports a deadline error. -/
def sampleSrvDeadline : GoContext → Option GoError :=
  fun _ => some GoError.deadlineExceeded

/-- A sample initialization error. -/
def boomErr : GoError := GoError.named "boom"

/-- A sample teardown error. -/
def tdBoomErr : GoError := GoError.named "teardown boom"

/-- Telemetry configuration with every switch on and all keys present. -/
def sampleCfgAllOn : OtelCfg :=
  { keysErr := none, otelEnabled := true, tracesEnabled := true,
    metricsEnabled := true, logsEnabled := true }

/-- Telemetry configuration with the global switch off and all keys
present. -/
def sampleCfgDisabled : OtelCfg :=
  { keysErr := none, otelEnabled := false, tracesEnabled := true,
    metricsEnabled := true, logsEnabled := true }

/-- An environment where the meter initializer fails and the tracer's
teardown also fails. -/
def sampleEnvMeterFails : OtelEnv :=
  { resourceErr := none
    initErr := fun c => match c with | .meter => some boomErr | _ => none
    teardownErr := fun c => match c with | .tracer => some tdBoomErr | _ => none }

/-- An environment where everything succeeds. -/
def sampleEnvAllOk : OtelEnv :=
  { resourceErr := none, initErr := fun _ => none, teardownErr := fun _ => none }

/-- A sample duration parser recognizing two duration strings. -/
def sampleTimeParse : String → Option Nat :=
  fun s => if s = "2s" then some 2000000000
    else if s = "5s" then some 5000000000 else none

/-- Timeout configuration exercising the signal-specific tier. -/
def sampleOtlpCfg1 : OtlpTimeoutCfg :=
  { tracesTimeout := "2s", metricsTimeout := "", logsTimeout := "",
    otlpTimeout := "5s" }

/-- Timeout configuration exercising the global tier. -/
def sampleOtlpCfg2 : OtlpTimeoutCfg :=
  { tracesTimeout := "", metricsTimeout := "", logsTimeout := "",
    otlpTimeout := "5s" }

/-- Timeout configuration exercising the built-in default tier. -/
def sampleOtlpCfg3 : OtlpTimeoutCfg :=
  { tracesTimeout := "", metricsTimeout := "", logsTimeout := "",
    otlpTimeout := "" }

/-- A bundle list whose second bundle fails. -/
def sampleBundles : List (Nat × Option GoError) :=
  [(1, none), (2, some boomErr), (3, none)]

/-- A Start environment where ListenAndServe fails with `boomErr` and the
subsequent shutdown attempt also errors. -/
def sampleStartEnv : StartEnv Nat :=
  { keysRegisteredErr := none
    bundles := [(1, none)]
    race := serveOutcome (some boomErr)
    srvShutdown := fun _ => some tdBoomErr
    shutdownTimeoutSecs := 30 }

/-! ## Helper lemmas -/

/-- Every error matches itself under `errors.Is`. -/
theorem errorsIs_self (e : GoError) : errorsIs e e = true := by
  cases e <;> simp [errorsIs]

/-- The error accumulation of `masterShutdown` never loses an already
matched cause. -/
theorem tdFold_preserves (env : OtelEnv) :
    ∀ (l : List Comp) (a t : GoError), errorsIs a t = true →
      ∃ b, l.foldl (tdStep env) (some a) = some b ∧ errorsIs b t = true := by
  intro l
  induction l with
  | nil => intro a t h; exact ⟨a, rfl, h⟩
  | cons c l ih =>
    intro a t h
    simp only [List.foldl_cons]
    cases hc : env.teardownErr c with
    | none => simpa [tdStep, hc] using ih a t h
    | some e =>
      have hj : errorsIs (goJoin (some a) e) t = true := by
        simp [goJoin, errorsIs, h]
      simpa [tdStep, hc] using ih (goJoin (some a) e) t hj

/-- Every non-nil teardown error of a component in the registry is a
cause of the error `masterShutdown` accumulates. -/
theorem tdFold_captures (env : OtelEnv) :
    ∀ (l : List Comp) (acc : Option GoError) (c : Comp) (e : GoError),
      c ∈ l → env.teardownErr c = some e →
      ∃ b, l.foldl (tdStep env) acc = some b ∧ errorsIs b e = true := by
  intro l
  induction l with
  | nil => intro acc c e h _; simp at h
  | cons c0 l ih =>
    intro acc c e hmem hte
    simp only [List.foldl_cons]
    rcases List.mem_cons.mp hmem with hc | hc
    · subst hc
      have h1 : tdStep env acc c = some (goJoin acc e) := by simp [tdStep, hte]
      rw [h1]
      have h2 : errorsIs (goJoin acc e) e = true := by
        cases acc <;> simp [goJoin, errorsIs, errorsIs_self]
      exact tdFold_preserves env l (goJoin acc e) e h2
    · exact ih (tdStep env acc c0) c e hc hte

/-- The shape of a `runComponents` run in which every enabled component
before `c` initializes successfully and `c` itself fails: the inits of
the predecessors are followed by the failing init, the unwind of the
accumulated registry, and the cumulative error of
`handleComponentSetupError`. -/
theorem runComponents_fail (env : OtelEnv) :
    ∀ (bs : List (Bool × Comp)) (evs : List Ev) (regs : List Comp)
      (pre : List Comp) (c : Comp) (rest : List Comp) (e : GoError),
      enabledComps bs = pre ++ c :: rest →
      (∀ c' ∈ pre, env.initErr c' = none) →
      env.initErr c = some e →
      runComponents env bs evs regs =
        { events := evs ++ pre.map Ev.init ++ [Ev.init c]
              ++ (masterShutdown env (regs ++ pre)).events
          teardown := some (.master [])
          err := some (failErr e (masterShutdown env (regs ++ pre)).err) } := by
  intro bs
  induction bs with
  | nil =>
    intro evs regs pre c rest e hplan _ _
    simp [enabledComps] at hplan
  | cons p bs ih =>
    intro evs regs pre c rest e hplan hpre hc
    obtain ⟨b, c0⟩ := p
    cases b with
    | false =>
      have hplan' : enabledComps bs = pre ++ c :: rest := by
        simpa [enabledComps] using hplan
      simpa [runComponents] using ih evs regs pre c rest e hplan' hpre hc
    | true =>
      have hplan' : c0 :: enabledComps bs = pre ++ c :: rest := by
        simpa [enabledComps] using hplan
      cases pre with
      | nil =>
        simp only [List.nil_append] at hplan'
        injection hplan' with h1 h2
        subst h1
        simp [runComponents, hc]
      | cons p0 pre' =>
        simp only [List.cons_append] at hplan'
        injection hplan' with h1 h2
        subst h1
        have hinit : env.initErr c0 = none := hpre c0 (List.mem_cons_self _ _)
        have hrec := ih (evs ++ [Ev.init c0]) (regs ++ [c0]) pre' c rest e h2
          (fun c' hc' => hpre c' (List.mem_cons_of_mem _ hc')) hc
        calc runComponents env ((true, c0) :: bs) evs regs
            = runComponents env bs (evs ++ [Ev.init c0]) (regs ++ [c0]) := by
              simp [runComponents, hinit]
          _ = _ := by
              rw [hrec]
              simp [List.append_assoc]

/-- The enabled-component plan of `setupOTelSDK` never repeats a
component. -/
theorem enabledComps_plan_nodup (cfg : OtelCfg) :
    (enabledComps (componentPlan cfg)).Nodup := by
  obtain ⟨k, o, t, m, l⟩ := cfg
  cases t <;> cases m <;> cases l <;> simp [componentPlan, enabledComps]

/-! ## Claim theorems -/

/-- C4: for every parent context and every configured shutdown timeout,
if the stop operation reports the `http.ErrServerClosed` sentinel,
`handleShutdown` returns nil, never an error. -/
theorem handleShutdown_already_closed (parent : GoContext)
    (srv : GoContext → Option GoError) (timeout : Int)
    (h : srv (contextWithTimeout parent timeout) = some GoError.errServerClosed) :
    (handleShutdown parent srv timeout).result = none := by
  simp [handleShutdown, h]

/-- Witness for C4: a server already closed, under a 5 second budget. -/
theorem handleShutdown_already_closed_witness :
    sampleSrvClosed (contextWithTimeout sampleCtx 5) = some GoError.errServerClosed
    ∧ (handleShutdown sampleCtx sampleSrvClosed 5).result = none :=
  ⟨rfl, handleShutdown_already_closed sampleCtx sampleSrvClosed 5 rfl⟩

/-- C7: with a zero (or negative) shutdown timeout the stop operation is
still invoked, with a derived deadline context that is already expired at
the time of the call, and the deadline/cancellation error it reports is
returned. -/
theorem handleShutdown_zero_budget (parent : GoContext)
    (srv : GoContext → Option GoError) (timeout : Int) (e : GoError)
    (ht : timeout ≤ 0)
    (hres : srv (contextWithTimeout parent timeout) = some e)
    (he : e = GoError.deadlineExceeded ∨ e = GoError.canceled) :
    (contextWithTimeout parent timeout).expired = true
    ∧ (handleShutdown parent srv timeout).invoked = [contextWithTimeout parent timeout]
    ∧ (handleShutdown parent srv timeout).result = some e := by
  have hne : e ≠ GoError.errServerClosed := by
    rcases he with h | h <;> subst h <;> simp
  refine ⟨?_, ?_, ?_⟩
  · simp [contextWithTimeout, ht]
  · simp [handleShutdown, hres, hne]
  · simp [handleShutdown, hres, hne]

/-- Witness for C7: zero budget, stop reports deadline exceeded. -/
theorem handleShutdown_zero_budget_witness :
    (0 : Int) ≤ 0
    ∧ sampleSrvDeadline (contextWithTimeout sampleCtx 0) = some GoError.deadlineExceeded
    ∧ ((contextWithTimeout sampleCtx 0).expired = true
       ∧ (handleShutdown sampleCtx sampleSrvDeadline 0).invoked
           = [contextWithTimeout sampleCtx 0]
       ∧ (handleShutdown sampleCtx sampleSrvDeadline 0).result
           = some GoError.deadlineExceeded) :=
  ⟨by decide, rfl,
   handleShutdown_zero_budget sampleCtx sampleSrvDeadline 0 GoError.deadlineExceeded
     (by decide) rfl (Or.inl rfl)⟩

/-- C5 (refuting the claim on the code): the `SERVER_WRITE_TIMEOUT`
constant is bound to the key string `SERVER_REQUEST_TIMEOUT`, so the five
key constants `Start` requires cover only four distinct keys, and the
server's write timeout is always read from the per-request-timeout key. -/
theorem server_write_timeout_key_aliased :
    SERVER_WRITE_TIMEOUT = SERVER_REQUEST_TIMEOUT
    ∧ ¬ startRequiredKeys.Nodup
    ∧ ∀ cfgInt : String → Int,
        (buildServer cfgInt).writeTimeoutSecs = cfgInt SERVER_REQUEST_TIMEOUT := by
  refine ⟨rfl, by decide, fun cfgInt => rfl⟩

/-- C3: if the ListenAndServe task terminates with an error other than
the deliberate-close sentinel, `Start` returns that error, whatever the
subsequent shutdown attempt returns. -/
theorem Start_listener_error_primary {σ : Type} (env : StartEnv σ) (e : GoError)
    (hk : env.keysRegisteredErr = none)
    (hb : (registerAPIBundles env.bundles).2 = none)
    (hrace : env.race = serveOutcome (some e))
    (he : e ≠ GoError.errServerClosed) :
    Start env = some e := by
  simp [Start, hk, hb, hrace, serveOutcome, he]

/-- Witness for C3: listener fails with `boomErr` while the shutdown
attempt itself errors; `Start` still returns `boomErr`. -/
theorem Start_listener_error_primary_witness :
    sampleStartEnv.keysRegisteredErr = none
    ∧ (registerAPIBundles sampleStartEnv.bundles).2 = none
    ∧ sampleStartEnv.race = serveOutcome (some boomErr)
    ∧ boomErr ≠ GoError.errServerClosed
    ∧ (handleShutdown { expired := false } sampleStartEnv.srvShutdown
        (sampleStartEnv.shutdownTimeoutSecs * goSecondNs)).result = some tdBoomErr
    ∧ Start sampleStartEnv = some boomErr :=
  ⟨rfl, by decide, rfl, by decide, by decide,
   Start_listener_error_primary sampleStartEnv boomErr rfl (by decide) rfl (by decide)⟩

/-- C6: with all telemetry keys registered and `OTEL_ENABLED` false,
`setupOTelSDK` returns a nil error and a no-op teardown that always
returns nil, and attempts no subsystem initialization. -/
theorem setupOTelSDK_disabled (cfg : OtelCfg) (env : OtelEnv)
    (hk : cfg.keysErr = none) (ho : cfg.otelEnabled = false) :
    (setupOTelSDK cfg env).err = none
    ∧ (setupOTelSDK cfg env).teardown = some Teardown.noop
    ∧ (setupOTelSDK cfg env).events = []
    ∧ ∀ env' : OtelEnv, callTeardown env' Teardown.noop
        = { events := [], err := none, next := Teardown.noop } := by
  refine ⟨?_, ?_, ?_, fun env' => rfl⟩ <;> simp [setupOTelSDK, hk, ho]

/-- Witness for C6: the disabled configuration. -/
theorem setupOTelSDK_disabled_witness :
    sampleCfgDisabled.keysErr = none
    ∧ sampleCfgDisabled.otelEnabled = false
    ∧ ((setupOTelSDK sampleCfgDisabled sampleEnvAllOk).err = none
       ∧ (setupOTelSDK sampleCfgDisabled sampleEnvAllOk).teardown = some Teardown.noop
       ∧ (setupOTelSDK sampleCfgDisabled sampleEnvAllOk).events = []
       ∧ ∀ env' : OtelEnv, callTeardown env' Teardown.noop
           = { events := [], err := none, next := Teardown.noop }) :=
  ⟨rfl, rfl, setupOTelSDK_disabled sampleCfgDisabled sampleEnvAllOk rfl rfl⟩

/-- C1: when the k-th attempted provider initialization fails, the run
consists of the inits of the successfully initialized predecessors, the
failing init, and exactly the predecessors' teardowns in strictly reverse
registration order; no later provider is ever initialized. -/
theorem setupOTelSDK_lifo_unwind (cfg : OtelCfg) (env : OtelEnv) (pre : List Comp)
    (c : Comp) (rest : List Comp) (e : GoError)
    (hk : cfg.keysErr = none) (ho : cfg.otelEnabled = true)
    (hr : env.resourceErr = none)
    (hplan : enabledComps (componentPlan cfg) = pre ++ c :: rest)
    (hpre : ∀ c' ∈ pre, env.initErr c' = none)
    (hc : env.initErr c = some e) :
    (setupOTelSDK cfg env).events
        = pre.map Ev.init ++ [Ev.init c] ++ pre.reverse.map Ev.teardown
    ∧ ∀ c' ∈ rest, Ev.init c' ∉ (setupOTelSDK cfg env).events := by
  have hrun := runComponents_fail env (componentPlan cfg) [] [] pre c rest e hplan hpre hc
  have hset : setupOTelSDK cfg env = runComponents env (componentPlan cfg) [] [] := by
    simp [setupOTelSDK, hk, ho, hr]
  have hev : (setupOTelSDK cfg env).events
      = pre.map Ev.init ++ [Ev.init c] ++ pre.reverse.map Ev.teardown := by
    rw [hset, hrun]
    simp [masterShutdown]
  refine ⟨hev, ?_⟩
  have hnd : (pre ++ c :: rest).Nodup := hplan ▸ enabledComps_plan_nodup cfg
  obtain ⟨hnp, hnc, hdisj⟩ := List.nodup_append.mp hnd
  intro c' hc'
  have h1 : c' ∉ pre := fun hin => hdisj hin (List.mem_cons_of_mem c hc')
  have h2 : c' ≠ c := by
    intro hcc
    exact (List.nodup_cons.mp hnc).1 (hcc ▸ hc')
  rw [hev]
  simp [List.mem_append, h1, h2]

/-- Witness for C1: tracer succeeds, meter fails, logger is enabled but
never attempted; only the tracer's teardown runs. -/
theorem setupOTelSDK_lifo_unwind_witness :
    enabledComps (componentPlan sampleCfgAllOn)
        = [Comp.tracer] ++ Comp.meter :: [Comp.logg]
    ∧ sampleEnvMeterFails.initErr Comp.meter = some boomErr
    ∧ ((setupOTelSDK sampleCfgAllOn sampleEnvMeterFails).events
          = [Comp.tracer].map Ev.init ++ [Ev.init Comp.meter]
            ++ [Comp.tracer].reverse.map Ev.teardown
       ∧ ∀ c' ∈ [Comp.logg],
           Ev.init c' ∉ (setupOTelSDK sampleCfgAllOn sampleEnvMeterFails).events) :=
  ⟨by decide, by decide,
   setupOTelSDK_lifo_unwind sampleCfgAllOn sampleEnvMeterFails [Comp.tracer]
     Comp.meter [Comp.logg] boomErr (by decide) (by decide) (by decide)
     (by decide) (by decide) (by decide)⟩

/-- C2: calling the composite teardown returned by `setupOTelSDK` a
second time invokes no teardown action and returns nil, whatever the
first call returned. -/
theorem setupOTelSDK_teardown_second_call (cfg : OtelCfg) (env env1 env2 : OtelEnv)
    (td : Teardown) (h : (setupOTelSDK cfg env).teardown = some td) :
    (callTeardown env2 (callTeardown env1 td).next).events = []
    ∧ (callTeardown env2 (callTeardown env1 td).next).err = none := by
  cases td <;> simp [callTeardown, masterShutdown]

/-- Witness for C2: the teardown of a fully successful setup, first
invoked in an environment where the tracer's teardown errors; the second
call runs nothing and returns nil. -/
theorem setupOTelSDK_teardown_second_call_witness :
    (setupOTelSDK sampleCfgAllOn sampleEnvAllOk).teardown
        = some (Teardown.master [Comp.tracer, Comp.meter, Comp.logg])
    ∧ (callTeardown sampleEnvMeterFails
        (Teardown.master [Comp.tracer, Comp.meter, Comp.logg])).err
        = some (GoError.joinedOne tdBoomErr)
    ∧ ((callTeardown sampleEnvAllOk (callTeardown sampleEnvMeterFails
          (Teardown.master [Comp.tracer, Comp.meter, Comp.logg])).next).events = []
       ∧ (callTeardown sampleEnvAllOk (callTeardown sampleEnvMeterFails
          (Teardown.master [Comp.tracer, Comp.meter, Comp.logg])).next).err = none) :=
  ⟨by decide, by decide,
   setupOTelSDK_teardown_second_call sampleCfgAllOn sampleEnvAllOk sampleEnvMeterFails
     sampleEnvAllOk (Teardown.master [Comp.tracer, Comp.meter, Comp.logg]) (by decide)⟩

/-- C9: the error returned on an initialization failure aggregates the
failing subsystem's own error and every error produced by the teardown
actions of the unwind, each remaining identifiable via `errors.Is`. -/
theorem setupOTelSDK_error_aggregation (cfg : OtelCfg) (env : OtelEnv)
    (pre : List Comp) (c : Comp) (rest : List Comp) (e : GoError)
    (hk : cfg.keysErr = none) (ho : cfg.otelEnabled = true)
    (hr : env.resourceErr = none)
    (hplan : enabledComps (componentPlan cfg) = pre ++ c :: rest)
    (hpre : ∀ c' ∈ pre, env.initErr c' = none)
    (hc : env.initErr c = some e) :
    ∃ E, (setupOTelSDK cfg env).err = some E
      ∧ errorsIs E e = true
      ∧ ∀ c' ∈ pre, ∀ e', env.teardownErr c' = some e' → errorsIs E e' = true := by
  have hrun := runComponents_fail env (componentPlan cfg) [] [] pre c rest e hplan hpre hc
  have hset : setupOTelSDK cfg env = runComponents env (componentPlan cfg) [] [] := by
    simp [setupOTelSDK, hk, ho, hr]
  have herr : (setupOTelSDK cfg env).err
      = some (failErr e (pre.reverse.foldl (tdStep env) none)) := by
    rw [hset, hrun]
    simp [masterShutdown]
  refine ⟨failErr e (pre.reverse.foldl (tdStep env) none), herr, ?_, ?_⟩
  · cases hfold : pre.reverse.foldl (tdStep env) none with
    | none => simp [failErr, errorsIs, errorsIs_self]
    | some s => simp [failErr, errorsIs, errorsIs_self]
  · intro c' hc' e' hte
    obtain ⟨b, hb, hbis⟩ := tdFold_captures env pre.reverse none c' e'
      (List.mem_reverse.mpr hc') hte
    rw [hb]
    simp [failErr, errorsIs, hbis]

/-- Witness for C9: meter fails with `boomErr` while the tracer's unwind
teardown fails with `tdBoomErr`; both are causes of the returned error. -/
theorem setupOTelSDK_error_aggregation_witness :
    sampleEnvMeterFails.teardownErr Comp.tracer = some tdBoomErr
    ∧ ∃ E, (setupOTelSDK sampleCfgAllOn sampleEnvMeterFails).err = some E
        ∧ errorsIs E boomErr = true
        ∧ ∀ c' ∈ [Comp.tracer], ∀ e',
            sampleEnvMeterFails.teardownErr c' = some e' → errorsIs E e' = true :=
  ⟨by decide,
   setupOTelSDK_error_aggregation sampleCfgAllOn sampleEnvMeterFails [Comp.tracer]
     Comp.meter [Comp.logg] boomErr (by decide) (by decide) (by decide)
     (by decide) (by decide) (by decide)⟩

/-- C8: for each signal type the exporter timeout resolves in three
tiers — the signal-specific timeout value when the signal-specific string
is non-empty (and denotes a duration), otherwise the global OTLP timeout
value when that is non-empty (and denotes a duration), otherwise the
built-in 10 second default. -/
theorem exporterTimeout_tiers (timeParse : String → Option Nat)
    (cfg : OtlpTimeoutCfg) (s : Signal) :
    (∀ v, signalTimeoutStr cfg s ≠ "" →
        timeParse (signalTimeoutStr cfg s) = some v →
        exporterTimeout timeParse cfg s = v)
    ∧ (signalTimeoutStr cfg s = "" → ∀ v, cfg.otlpTimeout ≠ "" →
        timeParse cfg.otlpTimeout = some v →
        exporterTimeout timeParse cfg s = v)
    ∧ (signalTimeoutStr cfg s = "" → cfg.otlpTimeout = "" →
        exporterTimeout timeParse cfg s = defaultOtlpTimeoutNs) := by
  refine ⟨?_, ?_, ?_⟩
  · intro v hne hp
    simp [exporterTimeout, fallback, parseDuration, hne, hp]
  · intro hsig v hne hp
    simp [exporterTimeout, fallback, parseDuration, hsig, hne, hp]
  · intro hsig hglob
    simp [exporterTimeout, fallback, parseDuration, hsig, hglob]

/-- Witness for C8: the three tiers exercised independently for the
traces signal. -/
theorem exporterTimeout_tiers_witness :
    exporterTimeout sampleTimeParse sampleOtlpCfg1 Signal.traces = 2000000000
    ∧ exporterTimeout sampleTimeParse sampleOtlpCfg2 Signal.traces = 5000000000
    ∧ exporterTimeout sampleTimeParse sampleOtlpCfg3 Signal.traces = 10000000000 :=
  ⟨(exporterTimeout_tiers sampleTimeParse sampleOtlpCfg1 Signal.traces).1
      2000000000 (by decide) (by decide),
   (exporterTimeout_tiers sampleTimeParse sampleOtlpCfg2 Signal.traces).2.1
      (by decide) 5000000000 (by decide) (by decide),
   (exporterTimeout_tiers sampleTimeParse sampleOtlpCfg3 Signal.traces).2.2
      (by decide) (by decide)⟩

/-- The loop of `RegisterAPIBundles` with no failing bundle invokes every
bundle in order and returns nil. -/
theorem registerAPIBundles_all_ok {σ : Type} :
    ∀ (l : List (σ × Option GoError)), (∀ p ∈ l, p.2 = none) →
      registerAPIBundles l = (l.map Prod.fst, none) := by
  intro l
  induction l with
  | nil => intro _; rfl
  | cons p l ih =>
    intro h
    obtain ⟨i, r⟩ := p
    have hr : r = none := h (i, r) (List.mem_cons_self _ _)
    subst hr
    simp [registerAPIBundles, ih (fun q hq => h q (List.mem_cons_of_mem _ hq))]

/-- The loop of `RegisterAPIBundles` stops at the first failing bundle
and returns its error unchanged. -/
theorem registerAPIBundles_stops {σ : Type} :
    ∀ (pre : List (σ × Option GoError)) (b : σ × Option GoError)
      (rest : List (σ × Option GoError)) (e : GoError),
      (∀ p ∈ pre, p.2 = none) → b.2 = some e →
      registerAPIBundles (pre ++ b :: rest)
        = (pre.map Prod.fst ++ [b.1], some e) := by
  intro pre
  induction pre with
  | nil =>
    intro b rest e _ hb
    obtain ⟨i, r⟩ := b
    simp only at hb
    subst hb
    simp [registerAPIBundles]
  | cons p pre ih =>
    intro b rest e hpre hb
    obtain ⟨i, r⟩ := p
    have hr : r = none := hpre (i, r) (List.mem_cons_self _ _)
    subst hr
    simp [registerAPIBundles,
      ih b rest e (fun q hq => hpre q (List.mem_cons_of_mem _ hq)) hb]

/-- `RegisterAPIBundles` returns nil exactly when every bundle returns
nil. -/
theorem registerAPIBundles_none_iff {σ : Type} :
    ∀ (l : List (σ × Option GoError)),
      (registerAPIBundles l).2 = none ↔ ∀ p ∈ l, p.2 = none := by
  intro l
  induction l with
  | nil => simp [registerAPIBundles]
  | cons p l ih =>
    obtain ⟨i, r⟩ := p
    cases r with
    | some e => simp [registerAPIBundles]
    | none => simp [registerAPIBundles, ih]

/-- C10: `RegisterAPIBundles` invokes the bundles in order up to and
including the first failing one, returns that first error unchanged,
never invokes a bundle after the failing one, and returns nil exactly
when every bundle returns nil. -/
theorem registerAPIBundles_first_error {σ : Type}
    (bundles : List (σ × Option GoError)) :
    ((registerAPIBundles bundles).2 = none ↔ ∀ p ∈ bundles, p.2 = none)
    ∧ ((∀ p ∈ bundles, p.2 = none) →
        (registerAPIBundles bundles).1 = bundles.map Prod.fst)
    ∧ ∀ (pre : List (σ × Option GoError)) (b : σ × Option GoError)
        (rest : List (σ × Option GoError)) (e : GoError),
        bundles = pre ++ b :: rest → (∀ p ∈ pre, p.2 = none) → b.2 = some e →
        (registerAPIBundles bundles).1 = pre.map Prod.fst ++ [b.1]
        ∧ (registerAPIBundles bundles).2 = some e := by
  refine ⟨registerAPIBundles_none_iff bundles, ?_, ?_⟩
  · intro h
    rw [registerAPIBundles_all_ok bundles h]
  · intro pre b rest e hsplit hpre hb
    subst hsplit
    rw [registerAPIBundles_stops pre b rest e hpre hb]
    exact ⟨rfl, rfl⟩

/-- Witness for C10: of three bundles the second fails; bundles one and
two are invoked in order, bundle three never, and the error is returned
unchanged. -/
theorem registerAPIBundles_first_error_witness :
    sampleBundles = [(1, none)] ++ (2, some boomErr) :: [(3, (none : Option GoError))]
    ∧ ((registerAPIBundles sampleBundles).1 = [1, 2]
       ∧ (registerAPIBundles sampleBundles).2 = some boomErr) :=
  ⟨by decide,
   (registerAPIBundles_first_error sampleBundles).2.2 [(1, none)] (2, some boomErr)
     [(3, none)] boomErr (by decide) (by decide) (by decide)⟩
